import Mathlib

/-!
# Page behaviours of `assets/js/main.js`

A shallow embedding of the script's event handlers.  Host objects the script
talks to (the persistent store, the media query, the DOM nodes it selects) are
fields of explicit state records; every handler is a function on such a record.
A handler that can end in an uncaught exception returns `Except JsError _`.
-/

namespace Portfolio

/-! ## Host values -/

/-- Uncaught exceptions the host can raise while a handler runs. -/
inductive JsError where
  /-- A global identifier that the host does not define was evaluated. -/
  | referenceError (name : String)
  /-- The selector handed to `document.querySelector` is not valid. -/
  | syntaxError (selector : String)
  deriving DecidableEq, Repr

/-- The persistent key-value store: `getItem` yields `none` for a missing key. -/
abbrev Storage := String → Option String

/-- The call `localStorage.getItem(key)`. -/
def Storage.getItem (s : Storage) (key : String) : Option String := s key

/-- The call `localStorage.setItem(key, value)`. -/
def Storage.setItem (s : Storage) (key value : String) : Storage :=
  fun k => if k = key then some value else s k

/-- JavaScript truthiness of a value that is a string or `null`:
`null` and the empty string are falsy. -/
def truthy : Option String → Bool
  | none => false
  | some v => decide (v ≠ "")

/-- The expression `a || b` for `a` a string or `null` and `b` a string. -/
def orElse (a : Option String) (b : String) : String :=
  match a with
  | some v => if truthy a then v else b
  | none => b

/-- The `.theme-toggle` element, as far as the script writes it. -/
structure Button where
  textContent : String
  ariaLabel : Option String
  deriving DecidableEq, Repr

/-- Everything the theme code of lines 2-67 reads or writes. -/
structure Page where
  /-- The global `localStorage`; `none` when the host offers no store. -/
  localStorage : Option Storage
  /-- The field is `none` when `window.matchMedia` is undefined, else
  `some b` with `b` the `matches` flag of `(prefers-color-scheme: dark)`. -/
  matchMedia : Option Bool
  /-- Attribute `data-theme` of `document.documentElement`. -/
  dataTheme : Option String
  /-- Result of `document.querySelector('.theme-toggle')`. -/
  themeToggle : Option Button
  /-- Whether `toggleTheme` is attached to the click event of the toggle. -/
  clickListener : Bool
  /-- Whether the arrow function of lines 46-50 is attached to the media query. -/
  changeListener : Bool

/-! ## Theme functionality (lines 2-67) -/

/-- Lines 4-5. -/
def getSystemTheme (w : Page) : String :=
  if w.matchMedia.isSome && (w.matchMedia == some true) then "dark" else "light"

/-- Lines 8-11: `stored || getSystemTheme()`. -/
def getCurrentTheme (w : Page) : Except JsError String :=
  match w.localStorage with
  | none => .error (.referenceError "localStorage")
  | some s =>
    let stored := s.getItem "theme"
    .ok (orElse stored (getSystemTheme w))

/-- Lines 14-23. -/
def applyTheme (theme : String) (w : Page) : Page :=
  let w := { w with dataTheme := some theme }
  match w.themeToggle with
  | some button =>
    let button := { button with textContent := if theme = "dark" then "☀️" else "🌙" }
    let button := { button with
      ariaLabel := some ("Switch to " ++ (if theme = "dark" then "light" else "dark") ++ " theme") }
    { w with themeToggle := some button }
  | none => w

/-- Lines 26-31. -/
def toggleTheme (w : Page) : Except JsError Page :=
  match getCurrentTheme w with
  | .error e => .error e
  | .ok current =>
    let newTheme := if current = "dark" then "light" else "dark"
    match w.localStorage with
    | none => .error (.referenceError "localStorage")
    | some s =>
      .ok (applyTheme newTheme { w with localStorage := some (s.setItem "theme" newTheme) })

/-- Lines 46-50: the listener for `change` events of the media query. -/
def systemChangeListener (w : Page) : Except JsError Page :=
  match w.localStorage with
  | none => .error (.referenceError "localStorage")
  | some s =>
    if !truthy (s.getItem "theme") then .ok (applyTheme (getSystemTheme w) w) else .ok w

/-- Lines 34-52. -/
def initTheme (w : Page) : Except JsError Page :=
  match getCurrentTheme w with
  | .error e => .error e
  | .ok currentTheme =>
    let w := applyTheme currentTheme w
    let w := if w.themeToggle.isSome then { w with clickListener := true } else w
    let w := if w.matchMedia.isSome then { w with changeListener := true } else w
    .ok w

/-- What the host can deliver to the theme code once the page is set up. -/
inductive ThemeEvent where
  /-- The user activates the `.theme-toggle` element. -/
  | click
  /-- A caller invokes `window.themeUtils.toggleTheme()`. -/
  | toggleCall
  /-- The system colour scheme changes; `dark` is the new `matches` flag. -/
  | systemChange (dark : Bool)
  deriving DecidableEq, Repr

/-- The host's event delivery: a click reaches `toggleTheme` only through the
listener attached by `initTheme`; a colour-scheme change updates the media
query (when the host has one) and then runs the listener if it is attached. -/
def dispatch (ev : ThemeEvent) (w : Page) : Except JsError Page :=
  match ev with
  | .click => if w.themeToggle.isSome && w.clickListener then toggleTheme w else .ok w
  | .toggleCall => toggleTheme w
  | .systemChange dark =>
    match w.matchMedia with
    | none => .ok w
    | some _ =>
      let w := { w with matchMedia := some dark }
      if w.changeListener then systemChangeListener w else .ok w

/-- Delivery of a finite sequence of events, stopping at the first uncaught
exception. -/
def dispatchAll : List ThemeEvent → Page → Except JsError Page
  | [], w => .ok w
  | ev :: rest, w =>
    match dispatch ev w with
    | .error e => .error e
    | .ok w => dispatchAll rest w

/-- Two consecutive calls of `toggleTheme`. -/
def toggleTwice (w : Page) : Except JsError Page :=
  match toggleTheme w with
  | .error e => .error e
  | .ok w => toggleTheme w

/-- The value under key `theme`, when the host has a store. -/
def storedTheme (w : Page) : Option String :=
  match w.localStorage with
  | none => none
  | some s => s.getItem "theme"

/-- A store with no keys. -/
def emptyStorage : Storage := fun _ => none

/-- A store whose only key is `theme`. -/
def themeStorage (v : String) : Storage := emptyStorage.setItem "theme" v

/-- A freshly loaded page: nothing applied yet, no listeners attached. -/
def freshPage (store : Option Storage) (media : Option Bool) (toggle : Option Button) : Page :=
  { localStorage := store, matchMedia := media, dataTheme := none, themeToggle := toggle,
    clickListener := false, changeListener := false }

/-- The toggle button as the markup ships it. -/
def plainButton : Button := { textContent := "", ariaLabel := none }


/-- The displayed theme agrees with the current theme, and a host with a
media query has the change listener attached. -/
def Consistent (w : Page) : Prop :=
  (∃ s, w.localStorage = some s ∧
    w.dataTheme = some (orElse (s.getItem "theme") (getSystemTheme w))) ∧
  (w.matchMedia.isSome = true → w.changeListener = true)

/-! ## Smooth scrolling for anchor links (lines 78-96) -/

/-- Identity of a DOM node. -/
abbrev NodeId := Nat

/-- The argument of `scrollIntoView`. -/
structure ScrollIntoViewOptions where
  behavior : String
  block : String
  deriving DecidableEq, Repr

/-- What one run of the click listener of lines 82-94 has done when it ends. -/
structure ClickOutcome where
  /-- Whether `e.preventDefault()` was called. -/
  defaultPrevented : Bool
  /-- The node on which `scrollIntoView` was called, with the options passed. -/
  scrolledIntoView : Option (NodeId × ScrollIntoViewOptions)
  /-- The exception that ended the listener, if one did. -/
  thrown : Option JsError
  deriving DecidableEq, Repr

/-- Lines 82-94, for a link whose `href` attribute is `href` at the time of the
click.  The host's `document.querySelector` is a parameter: it answers with a
node, with `null`, or by throwing. -/
def smoothScrollClick (querySelector : String → Except JsError (Option NodeId))
    (href : String) : ClickOutcome :=
  if href = "#" then
    { defaultPrevented := false, scrolledIntoView := none, thrown := none }
  else
    match querySelector href with
    | .error e => { defaultPrevented := false, scrolledIntoView := none, thrown := some e }
    | .ok none => { defaultPrevented := false, scrolledIntoView := none, thrown := none }
    | .ok (some target) =>
      { defaultPrevented := true,
        scrolledIntoView := some (target, { behavior := "smooth", block := "start" }),
        thrown := none }

/-- An element of the document: its node and its `id` attribute. -/
structure DomElement where
  node : NodeId
  id : Option String
  deriving DecidableEq, Repr

/-- The document the click listener searches.  The selector lookup of line 86
is the host's; it is modelled on selectors of the form `#name` and left to
`selectOther` on all others. -/
structure Document where
  /-- The elements, in tree order. -/
  elements : List DomElement
  /-- The host's answer to `document.querySelector` for a string that is
  neither an ASCII ID selector nor `#` alone or followed by a digit. -/
  selectOther : String → Except JsError (Option NodeId)

/-- The first element in tree order whose `id` attribute is `name`, as
`document.getElementById(name)` finds it. -/
def Document.getElementById (document : Document) (name : String) : Option NodeId :=
  (document.elements.find? fun el => el.id == some name).map fun el => el.node

/-- ASCII code points that may start a CSS identifier: letters and `_`. -/
def isIdentStart (c : Char) : Bool :=
  c.isAlpha || c == '_'

/-- Code points that may continue a CSS identifier. -/
def isIdentChar (c : Char) : Bool :=
  isIdentStart c || c.isDigit || c == '-'

/-- Whether the code points form a CSS identifier written in ASCII without
escapes. -/
def isIdentifier : List Char → Bool
  | [] => false
  | c :: rest =>
    if isIdentStart c then rest.all isIdentChar
    else if c == '-' then
      match rest with
      | [] => false
      | d :: tail => (isIdentStart d || d == '-') && tail.all isIdentChar
    else false

/-- How the selector grammar reads a string. -/
inductive SelectorClass where
  /-- The string is `#name` with `name` an identifier: an ID selector. -/
  | idSelector (name : String)
  /-- The string is `#` alone or `#` followed by a digit: no selector at all. -/
  | invalid
  /-- Any other string. -/
  | other
  deriving DecidableEq, Repr

/-- Classification of a selector string. -/
def classifySelector (selector : String) : SelectorClass :=
  match selector.toList with
  | [] => .other
  | c :: rest =>
    if c = '#' then
      if isIdentifier rest then .idSelector (String.mk rest)
      else
        match rest with
        | [] => .invalid
        | d :: _ => if d.isDigit then .invalid else .other
    else .other

/-- The call `document.querySelector(selector)` in a no-quirks document: an ID
selector yields the first element with that id or `null`, a string that is no
selector throws a `SyntaxError`. -/
def Document.querySelector (document : Document) (selector : String) :
    Except JsError (Option NodeId) :=
  match classifySelector selector with
  | .idSelector name => .ok (document.getElementById name)
  | .invalid => .error (.syntaxError selector)
  | .other => document.selectOther selector

/-- A document with `id="section1"` on node 7 and `id="1"` on node 3.  Its
answer outside the modelled selectors is fixed to `null`; nothing below
evaluates it there. -/
def sampleDocument : Document :=
  { elements := [{ node := 3, id := some "1" }, { node := 5, id := none },
      { node := 7, id := some "section1" }],
    selectOther := fun _ => .ok none }

/-! ## Lazy image loading (lines 168-183) -/

/-- An `img` element, as far as the lazy loader reads or writes it. -/
structure LazyImage where
  /-- Attribute `src`. -/
  src : Option String
  /-- Attribute `data-src`, read through `img.dataset.src`. -/
  dataSrc : Option String
  /-- Whether `imageObserver` is observing the element. -/
  observed : Bool
  deriving DecidableEq, Repr

/-- The images of the document, by node. -/
abbrev Images := NodeId → LazyImage

/-- One `IntersectionObserverEntry`. -/
structure IntersectionEntry where
  target : NodeId
  isIntersecting : Bool
  deriving DecidableEq, Repr

/-- The string stored by an assignment to `img.src`: `undefined` is converted
to the string of that name. -/
def toDOMString : Option String → String
  | some v => v
  | none => "undefined"

/-- Lines 173-178: the body of the `forEach` for one entry. -/
def loadEntry (imgs : Images) (entry : IntersectionEntry) : Images :=
  if entry.isIntersecting then
    let img := imgs entry.target
    let img := { img with src := some (toDOMString img.dataSrc) }
    let img := { img with dataSrc := none }
    let img := { img with observed := false }
    fun n => if n = entry.target then img else imgs n
  else imgs

/-- Lines 171-180: the callback handed to `new IntersectionObserver`. -/
def imageObserverCallback (entries : List IntersectionEntry) (imgs : Images) : Images :=
  entries.foldl loadEntry imgs

/-- Lines 169-183: the lazy loader's setup at `DOMContentLoaded`, on a host that
has (`true`) or lacks (`false`) the global `IntersectionObserver`. -/
def lazyImageSetup (hasIntersectionObserver : Bool) (imgs : Images) : Except JsError Images :=
  if hasIntersectionObserver then
    .ok fun n => if (imgs n).dataSrc.isSome then { imgs n with observed := true } else imgs n
  else .ok imgs

/-- A document whose only deferred image is node 0 with `data-src="x.png"`. -/
def sampleImages : Images :=
  fun n => if n = 0 then { src := none, dataSrc := some "x.png", observed := true }
    else { src := some "logo.png", dataSrc := none, observed := false }

/-! ## Reveal on scroll (lines 127-151) -/

/-- An element matched by `.card, .section h2, .chips`, as far as the animator
writes it. -/
structure AnimatedElement where
  opacity : String
  transform : String
  transition : String
  /-- Whether `observer` is observing the element. -/
  observed : Bool
  deriving DecidableEq, Repr

/-- Lines 127-151: the animator's setup at `DOMContentLoaded`.  The expression
`new IntersectionObserver(...)` of line 134 is evaluated first and throws when
the host does not define that global. -/
def revealSetup (hasIntersectionObserver : Bool) (animatedElements : List AnimatedElement) :
    Except JsError (List AnimatedElement) :=
  if hasIntersectionObserver then
    .ok (animatedElements.map fun el =>
      let el := { el with opacity := "0" }
      let el := { el with transform := "translateY(20px)" }
      let el := { el with transition := "opacity 0.6s ease, transform 0.6s ease" }
      { el with observed := true })
  else .error (.referenceError "IntersectionObserver")

end Portfolio

namespace Portfolio

/-! ## Basic facts about the host model -/

theorem getItem_setItem_same (s : Storage) (k v : String) :
    (s.setItem k v).getItem k = some v := by
  simp [Storage.getItem, Storage.setItem]

theorem setItem_setItem (s : Storage) (k a b : String) :
    (s.setItem k a).setItem k b = s.setItem k b := by
  funext x
  by_cases h : x = k <;> simp [Storage.setItem, h]

theorem setItem_of_getItem (s : Storage) (k v : String) (h : s.getItem k = some v) :
    s.setItem k v = s := by
  funext x
  by_cases hx : x = k
  · subst hx
    simpa [Storage.setItem, Storage.getItem] using h.symm
  · simp [Storage.setItem, hx]

theorem orElse_none (b : String) : orElse none b = b := rfl

theorem orElse_some (v b : String) (h : v ≠ "") : orElse (some v) b = v := by
  simp [orElse, truthy, h]

theorem orElse_empty (b : String) : orElse (some "") b = b := by
  simp [orElse, truthy]

theorem getSystemTheme_eq (w : Page) :
    getSystemTheme w = if w.matchMedia = some true then "dark" else "light" := by
  unfold getSystemTheme
  rcases h : w.matchMedia with _ | b
  · simp
  · cases b <;> simp

theorem getSystemTheme_mem (w : Page) :
    getSystemTheme w = "light" ∨ getSystemTheme w = "dark" := by
  rw [getSystemTheme_eq]
  split <;> simp

theorem getCurrentTheme_ok (w : Page) (s : Storage) (hs : w.localStorage = some s) :
    getCurrentTheme w = .ok (orElse (s.getItem "theme") (getSystemTheme w)) := by
  simp [getCurrentTheme, hs]

theorem applyTheme_localStorage (t : String) (w : Page) :
    (applyTheme t w).localStorage = w.localStorage := by
  unfold applyTheme
  cases h : w.themeToggle <;> simp [h]

theorem applyTheme_matchMedia (t : String) (w : Page) :
    (applyTheme t w).matchMedia = w.matchMedia := by
  unfold applyTheme
  cases h : w.themeToggle <;> simp [h]

theorem applyTheme_dataTheme (t : String) (w : Page) :
    (applyTheme t w).dataTheme = some t := by
  unfold applyTheme
  cases h : w.themeToggle <;> simp [h]

theorem applyTheme_changeListener (t : String) (w : Page) :
    (applyTheme t w).changeListener = w.changeListener := by
  unfold applyTheme
  cases h : w.themeToggle <;> simp [h]

theorem applyTheme_themeToggle (t : String) (w : Page) :
    (applyTheme t w).themeToggle = w.themeToggle.map fun _ =>
      { textContent := if t = "dark" then "☀️" else "🌙",
        ariaLabel := some ("Switch to " ++ (if t = "dark" then "light" else "dark") ++ " theme") } := by
  unfold applyTheme
  cases h : w.themeToggle <;> simp [h]

theorem getSystemTheme_applyTheme (t : String) (w : Page) :
    getSystemTheme (applyTheme t w) = getSystemTheme w := by
  simp [getSystemTheme, applyTheme_matchMedia]

theorem toggleTheme_ok (w : Page) (s : Storage) (hs : w.localStorage = some s) :
    toggleTheme w = .ok (applyTheme
      (if orElse (s.getItem "theme") (getSystemTheme w) = "dark" then "light" else "dark")
      { w with localStorage := some (s.setItem "theme"
          (if orElse (s.getItem "theme") (getSystemTheme w) = "dark" then "light" else "dark")) }) := by
  simp [toggleTheme, getCurrentTheme_ok w s hs, hs]

theorem toggleTheme_fields (w : Page) (s : Storage) (hs : w.localStorage = some s)
    (t : String) (ht : orElse (s.getItem "theme") (getSystemTheme w) = t) :
    ∃ w1, toggleTheme w = .ok w1 ∧
      w1.localStorage = some (s.setItem "theme" (if t = "dark" then "light" else "dark")) ∧
      w1.dataTheme = some (if t = "dark" then "light" else "dark") ∧
      w1.matchMedia = w.matchMedia ∧
      w1.themeToggle = (applyTheme (if t = "dark" then "light" else "dark") w).themeToggle ∧
      w1.clickListener = w.clickListener ∧ w1.changeListener = w.changeListener := by
  refine ⟨applyTheme (if t = "dark" then "light" else "dark")
      { w with localStorage := some (s.setItem "theme" (if t = "dark" then "light" else "dark")) },
    ?_, ?_, ?_, ?_, ?_, ?_, ?_⟩
  · rw [toggleTheme_ok w s hs, ht]
  · rw [applyTheme_localStorage]
  · rw [applyTheme_dataTheme]
  · rw [applyTheme_matchMedia]
  · rw [applyTheme_themeToggle, applyTheme_themeToggle]
  · unfold applyTheme
    cases h : w.themeToggle <;> simp [h]
  · rw [applyTheme_changeListener]

theorem flip_flip (t : String) (h : t = "light" ∨ t = "dark") :
    (if (if t = "dark" then "light" else "dark") = "dark" then "light" else "dark") = t := by
  rcases h with rfl | rfl <;> decide

theorem flip_ne_empty (t : String) : (if t = "dark" then "light" else "dark") ≠ "" := by
  split <;> decide

theorem initTheme_consistent (w : Page) (s : Storage) (hs : w.localStorage = some s) :
    ∃ w1, initTheme w = .ok w1 ∧ Consistent w1 := by
  have hcur := getCurrentTheme_ok w s hs
  rcases hb : w.themeToggle with _ | b <;> rcases hm : w.matchMedia with _ | m <;>
    simp [initTheme, hcur, applyTheme, hb, hm, Consistent, hs, getSystemTheme]

theorem toggleTheme_consistent (w : Page) (h : Consistent w) :
    ∃ w1, toggleTheme w = .ok w1 ∧ Consistent w1 := by
  obtain ⟨⟨s, hs, -⟩, hl⟩ := h
  obtain ⟨w1, hw1, hst, hdt, hmm, -, -, hcl⟩ :=
    toggleTheme_fields w s hs (orElse (s.getItem "theme") (getSystemTheme w)) rfl
  refine ⟨w1, hw1, ⟨_, hst, ?_⟩, ?_⟩
  · rw [hdt, getItem_setItem_same, orElse_some _ _ (flip_ne_empty _)]
  · rw [hmm, hcl]
    exact hl

theorem systemChange_consistent (w : Page) (dark : Bool) (h : Consistent w) :
    ∃ w1, dispatch (.systemChange dark) w = .ok w1 ∧ Consistent w1 := by
  obtain ⟨⟨s, hs, hd⟩, hl⟩ := h
  rcases hm : w.matchMedia with _ | m
  · exact ⟨w, by simp [dispatch, hm], ⟨s, hs, hd⟩, hl⟩
  · have hl1 : w.changeListener = true := hl (by simp [hm])
    rcases hget : s.getItem "theme" with _ | p
    · refine ⟨applyTheme (getSystemTheme { w with matchMedia := some dark })
        { w with matchMedia := some dark }, ?_, ⟨s, ?_, ?_⟩, ?_⟩
      · simp [dispatch, hm, hl1, systemChangeListener, hs, hget, truthy]
      · rw [applyTheme_localStorage]
        exact hs
      · rw [applyTheme_dataTheme, hget, orElse_none, getSystemTheme_applyTheme]
      · intro _
        rw [applyTheme_changeListener]
        exact hl1
    · by_cases hp : p = ""
      · refine ⟨applyTheme (getSystemTheme { w with matchMedia := some dark })
          { w with matchMedia := some dark }, ?_, ⟨s, ?_, ?_⟩, ?_⟩
        · simp [dispatch, hm, hl1, systemChangeListener, hs, hget, truthy, hp]
        · rw [applyTheme_localStorage]
          exact hs
        · rw [applyTheme_dataTheme, hget, hp, orElse_empty, getSystemTheme_applyTheme]
        · intro _
          rw [applyTheme_changeListener]
          exact hl1
      · refine ⟨{ w with matchMedia := some dark }, ?_, ⟨s, hs, ?_⟩, fun _ => hl1⟩
        · simp [dispatch, hm, hl1, systemChangeListener, hs, hget, truthy, hp]
        · rw [hget, orElse_some _ _ hp] at hd ⊢
          exact hd

theorem dispatch_consistent (ev : ThemeEvent) (w : Page) (h : Consistent w) :
    ∃ w1, dispatch ev w = .ok w1 ∧ Consistent w1 := by
  cases ev with
  | click =>
    by_cases hc : (w.themeToggle.isSome && w.clickListener) = true
    · obtain ⟨w1, hw1, hc1⟩ := toggleTheme_consistent w h
      exact ⟨w1, by simp only [dispatch, hc, if_true, hw1], hc1⟩
    · exact ⟨w, by simp only [dispatch, hc, if_false, Bool.false_eq_true], h⟩
  | toggleCall => exact toggleTheme_consistent w h
  | systemChange dark => exact systemChange_consistent w dark h

theorem dispatchAll_consistent (evs : List ThemeEvent) (w : Page) (h : Consistent w) :
    ∃ w1, dispatchAll evs w = .ok w1 ∧ Consistent w1 := by
  induction evs generalizing w with
  | nil => exact ⟨w, rfl, h⟩
  | cons ev rest ih =>
    obtain ⟨w1, hw1, hc1⟩ := dispatch_consistent ev w h
    obtain ⟨w2, hw2, hc2⟩ := ih w1 hc1
    exact ⟨w2, by simp only [dispatchAll, hw1, hw2], hc2⟩

end Portfolio

namespace Portfolio

/-! ## Theme controller: reading the theme -/

/-- C1: with a store present, a stored preference `p` in {light, dark} is what
`getCurrentTheme` returns under every system signal; with no preference stored
it returns `getSystemTheme`, which is `dark` exactly when the host reports a
dark colour scheme and `light` otherwise. -/
theorem getCurrentTheme_spec (w : Page) (s : Storage) (hs : w.localStorage = some s) :
    (∀ p, p = "light" ∨ p = "dark" → s.getItem "theme" = some p →
        ∀ media, getCurrentTheme { w with matchMedia := media } = .ok p) ∧
    (s.getItem "theme" = none → getCurrentTheme w = .ok (getSystemTheme w)) ∧
    (w.matchMedia = some true → getSystemTheme w = "dark") ∧
    (w.matchMedia ≠ some true → getSystemTheme w = "light") := by
  refine ⟨?_, ?_, ?_, ?_⟩
  · intro p hp hget media
    have hne : p ≠ "" := by rcases hp with rfl | rfl <;> decide
    have h := getCurrentTheme_ok { w with matchMedia := media } s hs
    rw [h, hget, orElse_some p _ hne]
  · intro hget
    rw [getCurrentTheme_ok w s hs, hget, orElse_none]
  · intro h
    simp [getSystemTheme_eq, h]
  · intro h
    simp [getSystemTheme_eq, h]

/-- C1 at a concrete page: preference `light` stored while the system is dark. -/
theorem getCurrentTheme_spec_witness :
    (∀ media, getCurrentTheme
        { freshPage (some (themeStorage "light")) (some true) none with matchMedia := media } =
          .ok "light") ∧
    getSystemTheme (freshPage (some (themeStorage "light")) (some true) none) = "dark" :=
  ⟨(getCurrentTheme_spec (freshPage (some (themeStorage "light")) (some true) none)
      (themeStorage "light") rfl).1 "light" (Or.inl rfl) rfl,
   (getCurrentTheme_spec (freshPage (some (themeStorage "light")) (some true) none)
      (themeStorage "light") rfl).2.2.1 rfl⟩

/-! ## Theme controller: toggling -/

/-- C2 fails for an empty store: with no preference stored and a light system,
two toggles leave `theme = light` in the store, which held nothing before. -/
theorem toggleTwice_store_not_restored :
    storedTheme (freshPage (some emptyStorage) (some false) (some plainButton)) = none ∧
    Except.map storedTheme
        (toggleTwice (freshPage (some emptyStorage) (some false) (some plainButton))) =
      .ok (some "light") := by
  constructor
  · rfl
  · rfl

/-- C2 as amended: for a store holding `light`, `dark` or no preference, two
calls of `toggleTheme` succeed and leave `getCurrentTheme` and the `data-theme`
marker at the theme `t` that was current before; the store is back at its
original content when a preference was stored, and otherwise it is the original
store extended by `theme = t`. -/
theorem toggleTwice_spec (w : Page) (s : Storage) (hs : w.localStorage = some s)
    (hp : s.getItem "theme" = none ∨ s.getItem "theme" = some "light" ∨
      s.getItem "theme" = some "dark") :
    ∃ t w2, getCurrentTheme w = .ok t ∧ toggleTwice w = .ok w2 ∧
      getCurrentTheme w2 = .ok t ∧ w2.dataTheme = some t ∧
      (w.dataTheme = some t → w2.dataTheme = w.dataTheme) ∧
      (s.getItem "theme" ≠ none → w2.localStorage = some s) ∧
      (s.getItem "theme" = none → w2.localStorage = some (s.setItem "theme" t)) := by
  have key : ∀ t, orElse (s.getItem "theme") (getSystemTheme w) = t →
      (t = "light" ∨ t = "dark") → (s.getItem "theme" ≠ none → s.getItem "theme" = some t) →
      ∃ t w2, getCurrentTheme w = .ok t ∧ toggleTwice w = .ok w2 ∧
        getCurrentTheme w2 = .ok t ∧ w2.dataTheme = some t ∧
        (w.dataTheme = some t → w2.dataTheme = w.dataTheme) ∧
        (s.getItem "theme" ≠ none → w2.localStorage = some s) ∧
        (s.getItem "theme" = none → w2.localStorage = some (s.setItem "theme" t)) := by
    intro t ht hmem hstored
    have htne : t ≠ "" := by
      rcases hmem with rfl | rfl <;> decide
    obtain ⟨w1, hw1, hst1, -, -, -, -, -⟩ := toggleTheme_fields w s hs t ht
    obtain ⟨w2, hw2, hst2, hdt2, -, -, -, -⟩ := toggleTheme_fields w1 _ hst1
      (if t = "dark" then "light" else "dark")
      (by rw [getItem_setItem_same, orElse_some _ _ (flip_ne_empty t)])
    rw [flip_flip t hmem] at hst2 hdt2
    rw [setItem_setItem] at hst2
    refine ⟨t, w2, ?_, ?_, ?_, hdt2, ?_, ?_, ?_⟩
    · rw [getCurrentTheme_ok w s hs, ht]
    · simp only [toggleTwice, hw1]
      exact hw2
    · rw [getCurrentTheme_ok w2 _ hst2, getItem_setItem_same, orElse_some _ _ htne]
    · intro h
      rw [hdt2, h]
    · intro h
      rw [hst2, setItem_of_getItem s "theme" t (hstored h)]
    · intro _
      exact hst2
  rcases hp with h | h | h
  · exact key (getSystemTheme w) (by rw [h, orElse_none]) (getSystemTheme_mem w)
      (fun hn => absurd h hn)
  · exact key "light" (by rw [h, orElse_some _ _ (by decide)]) (Or.inl rfl) (fun _ => h)
  · exact key "dark" (by rw [h, orElse_some _ _ (by decide)]) (Or.inr rfl) (fun _ => h)

/-- C2 as amended, at a page whose store holds `dark` while the system is light:
after two toggles the theme is `dark` again and the store is the original one. -/
theorem toggleTwice_spec_witness :
    ∃ w2, toggleTwice (freshPage (some (themeStorage "dark")) (some false) none) = .ok w2 ∧
      getCurrentTheme w2 = .ok "dark" ∧ w2.dataTheme = some "dark" ∧
      w2.localStorage = some (themeStorage "dark") := by
  obtain ⟨t, w2, ht, h2, hcur, hmark, -, hstore, -⟩ :=
    toggleTwice_spec (freshPage (some (themeStorage "dark")) (some false) none)
      (themeStorage "dark") rfl (Or.inr (Or.inr rfl))
  have h0 : getCurrentTheme (freshPage (some (themeStorage "dark")) (some false) none) =
      .ok "dark" := rfl
  rw [h0] at ht
  injection ht with ht
  subst ht
  exact ⟨w2, h2, hcur, hmark, hstore (by decide)⟩

end Portfolio

namespace Portfolio

/-- C3: with a store present and `t` the current theme, `toggleTheme` succeeds;
for `t = dark` it leaves `theme = light` in the store, marker `light`, and on an
existing toggle the moon glyph with label `Switch to dark theme`; for every
other `t` (so for `t = light`) it leaves `theme = dark`, marker `dark`, the sun
glyph and label `Switch to light theme`. -/
theorem toggleTheme_spec (w : Page) (s : Storage) (hs : w.localStorage = some s) :
    ∃ t w1, getCurrentTheme w = .ok t ∧ toggleTheme w = .ok w1 ∧
      (t = "dark" →
        storedTheme w1 = some "light" ∧ w1.dataTheme = some "light" ∧
        (w.themeToggle.isSome → w1.themeToggle =
          some { textContent := "🌙", ariaLabel := some "Switch to dark theme" })) ∧
      (t ≠ "dark" →
        storedTheme w1 = some "dark" ∧ w1.dataTheme = some "dark" ∧
        (w.themeToggle.isSome → w1.themeToggle =
          some { textContent := "☀️", ariaLabel := some "Switch to light theme" })) ∧
      (w.themeToggle = none → w1.themeToggle = none) := by
  obtain ⟨w1, hw1, hst, hdt, -, hbtn, -, -⟩ :=
    toggleTheme_fields w s hs (orElse (s.getItem "theme") (getSystemTheme w)) rfl
  refine ⟨_, w1, getCurrentTheme_ok w s hs, hw1, ?_, ?_, ?_⟩
  · intro ht
    rw [ht] at hst hdt hbtn
    refine ⟨?_, ?_, ?_⟩
    · simp [storedTheme, hst, getItem_setItem_same]
    · simpa using hdt
    · intro hb
      obtain ⟨b, hb⟩ := Option.isSome_iff_exists.mp hb
      rw [hbtn, applyTheme_themeToggle, hb]
      rfl
  · intro ht
    rw [if_neg ht] at hst hdt hbtn
    refine ⟨?_, hdt, ?_⟩
    · simp [storedTheme, hst, getItem_setItem_same]
    · intro hb
      obtain ⟨b, hb⟩ := Option.isSome_iff_exists.mp hb
      rw [hbtn, applyTheme_themeToggle, hb]
      rfl
  · intro hb
    rw [hbtn, applyTheme_themeToggle, hb]
    rfl

/-- C3 at the scenario of the specification: empty store, light system, toggle
control present; the toggle stores `dark`, marks `dark` and announces the
switch to light. -/
theorem toggleTheme_spec_witness :
    ∃ w1, toggleTheme (freshPage (some emptyStorage) (some false) (some plainButton)) = .ok w1 ∧
      storedTheme w1 = some "dark" ∧ w1.dataTheme = some "dark" ∧
      w1.themeToggle = some { textContent := "☀️", ariaLabel := some "Switch to light theme" } := by
  obtain ⟨t, w1, ht, h1, -, hlight, -⟩ :=
    toggleTheme_spec (freshPage (some emptyStorage) (some false) (some plainButton))
      emptyStorage rfl
  have h0 : getCurrentTheme (freshPage (some emptyStorage) (some false) (some plainButton)) =
      .ok "light" := rfl
  rw [h0] at ht
  injection ht with ht
  subst ht
  obtain ⟨hst, hmark, hbtn⟩ := hlight (by decide)
  exact ⟨w1, h1, hst, hmark, hbtn rfl⟩

/-! ## Theme controller: applying a theme -/

/-- C9: `applyTheme t` applied twice gives the same page as applied once,
whether the toggle control exists or not, and `applyTheme` leaves the store as
it found it. -/
theorem applyTheme_idempotent (t : String) (w : Page) :
    applyTheme t (applyTheme t w) = applyTheme t w ∧
    (applyTheme t w).localStorage = w.localStorage := by
  refine ⟨?_, applyTheme_localStorage t w⟩
  unfold applyTheme
  cases h : w.themeToggle <;> simp [h]

/-! ## Theme controller: system colour-scheme changes -/

/-- C4: on a page whose change listener is attached, a change of the system
signal to `dark` (flag `true`) or `light` (flag `false`) raises no error and
does not write the store; with a non-empty preference stored the marker and the
toggle control stay as they were; with no preference stored the marker becomes
the new system theme and an existing toggle shows that theme's glyph and
label. -/
theorem systemChange_spec (w : Page) (s : Storage) (dark : Bool)
    (hs : w.localStorage = some s) (hm : w.matchMedia.isSome = true)
    (hl : w.changeListener = true) :
    ∃ w1, dispatch (.systemChange dark) w = .ok w1 ∧ w1.localStorage = some s ∧
      w1.matchMedia = some dark ∧
      (∀ p, s.getItem "theme" = some p → p ≠ "" →
        w1.dataTheme = w.dataTheme ∧ w1.themeToggle = w.themeToggle) ∧
      (s.getItem "theme" = none →
        w1.dataTheme = some (if dark then "dark" else "light") ∧
        w1.themeToggle = w.themeToggle.map fun _ =>
          { textContent := if dark then "☀️" else "🌙",
            ariaLabel := some (if dark then "Switch to light theme"
              else "Switch to dark theme") }) := by
  obtain ⟨m, hm⟩ := Option.isSome_iff_exists.mp hm
  rcases hget : s.getItem "theme" with _ | p
  · refine ⟨applyTheme (if dark then "dark" else "light") { w with matchMedia := some dark },
      ?_, ?_, ?_, ?_, ?_⟩
    · cases dark <;>
        simp [dispatch, hm, hl, systemChangeListener, hs, hget, truthy, getSystemTheme_eq]
    · rw [applyTheme_localStorage]
      exact hs
    · rw [applyTheme_matchMedia]
    · intro p hp
      cases hp
    · intro _
      refine ⟨applyTheme_dataTheme _ _, ?_⟩
      rw [applyTheme_themeToggle]
      cases dark <;> rfl
  · by_cases hp : p = ""
    · refine ⟨applyTheme (if dark then "dark" else "light") { w with matchMedia := some dark },
        ?_, ?_, ?_, ?_, ?_⟩
      · cases dark <;>
          simp [dispatch, hm, hl, systemChangeListener, hs, hget, truthy, getSystemTheme_eq, hp]
      · rw [applyTheme_localStorage]
        exact hs
      · rw [applyTheme_matchMedia]
      · intro q hq hne
        cases hq
        exact absurd hp hne
      · intro h
        cases h
    · refine ⟨{ w with matchMedia := some dark }, ?_, hs, rfl, ?_, ?_⟩
      · simp [dispatch, hm, hl, systemChangeListener, hs, hget, truthy, hp]
      · intro _ _ _
        exact ⟨rfl, rfl⟩
      · intro h
        cases h

end Portfolio

namespace Portfolio

/-- C4 at a page with the listener attached, no preference stored, the system
turning dark: the marker and the toggle follow, the store stays empty. -/
theorem systemChange_spec_witness :
    ∃ w1, dispatch (.systemChange true)
        { freshPage (some emptyStorage) (some false) (some plainButton) with
          changeListener := true } = .ok w1 ∧
      w1.localStorage = some emptyStorage ∧ w1.dataTheme = some "dark" ∧
      w1.themeToggle = some { textContent := "☀️", ariaLabel := some "Switch to light theme" } := by
  obtain ⟨w1, h1, hstore, -, -, hfollow⟩ := systemChange_spec
    { freshPage (some emptyStorage) (some false) (some plainButton) with changeListener := true }
    emptyStorage true rfl rfl rfl
  exact ⟨w1, h1, hstore, (hfollow rfl).1, (hfollow rfl).2⟩

/-! ## Theme controller: the displayed theme over a run -/

/-- C10: from any page with a store, whatever it holds, `initTheme` succeeds,
and after any finite sequence of toggle activations and colour-scheme change
notifications no error was raised and the `data-theme` marker equals
`getCurrentTheme()`; and one call of `toggleTheme` leaves `light` or `dark`
under the key `theme`. -/
theorem displayed_theme_invariant (w : Page) (s : Storage) (hs : w.localStorage = some s)
    (evs : List ThemeEvent) :
    (∃ w0 w1 t, initTheme w = .ok w0 ∧ dispatchAll evs w0 = .ok w1 ∧
      getCurrentTheme w1 = .ok t ∧ w1.dataTheme = some t) ∧
    (∃ w1, toggleTheme w = .ok w1 ∧
      (storedTheme w1 = some "light" ∨ storedTheme w1 = some "dark")) := by
  constructor
  · obtain ⟨w0, hw0, hc0⟩ := initTheme_consistent w s hs
    obtain ⟨w1, hw1, ⟨s1, hs1, hd1⟩, -⟩ := dispatchAll_consistent evs w0 hc0
    exact ⟨w0, w1, _, hw0, hw1, getCurrentTheme_ok w1 s1 hs1, hd1⟩
  · obtain ⟨w1, hw1, hst, -⟩ :=
      toggleTheme_fields w s hs (orElse (s.getItem "theme") (getSystemTheme w)) rfl
    refine ⟨w1, hw1, ?_⟩
    simp only [storedTheme, hst, getItem_setItem_same]
    split
    · exact Or.inl rfl
    · exact Or.inr rfl

/-- C10 at a page whose store holds the string `blue`, run through a colour
scheme change, a click and a second change. -/
theorem displayed_theme_invariant_witness :
    (∃ w0 w1 t,
      initTheme (freshPage (some (themeStorage "blue")) (some false) (some plainButton)) =
        .ok w0 ∧
      dispatchAll [.systemChange true, .click, .systemChange false] w0 = .ok w1 ∧
      getCurrentTheme w1 = .ok t ∧ w1.dataTheme = some t) ∧
    (∃ w1, toggleTheme (freshPage (some (themeStorage "blue")) (some false) (some plainButton)) =
        .ok w1 ∧
      (storedTheme w1 = some "light" ∨ storedTheme w1 = some "dark")) :=
  displayed_theme_invariant (freshPage (some (themeStorage "blue")) (some false) (some plainButton))
    (themeStorage "blue") rfl [.systemChange true, .click, .systemChange false]

end Portfolio

namespace Portfolio

/-! ## Theme controller: missing host capabilities -/

/-- C5 fails on a host without a persistent store: `getCurrentTheme` ends in an
uncaught exception instead of returning `getSystemTheme()`, and so does
`initTheme`. -/
theorem getCurrentTheme_without_store :
    getCurrentTheme (freshPage none (some true) (some plainButton)) =
      .error (.referenceError "localStorage") ∧
    getCurrentTheme (freshPage none (some true) (some plainButton)) ≠
      .ok (getSystemTheme (freshPage none (some true) (some plainButton))) ∧
    Except.map storedTheme (initTheme (freshPage none (some true) (some plainButton))) =
      .error (.referenceError "localStorage") := by
  refine ⟨rfl, ?_, rfl⟩
  intro h
  cases h

/-- C5 as amended: on a host without `window.matchMedia`, `getSystemTheme`
returns `light`; if the host has a store, `getCurrentTheme` returns the stored
non-empty preference or else `light`, `initTheme` succeeds, displays that theme
and attaches no change listener, and `toggleTheme` succeeds. -/
theorem theme_without_matchMedia (w : Page) (hm : w.matchMedia = none) :
    getSystemTheme w = "light" ∧
    ∀ s, w.localStorage = some s →
      getCurrentTheme w = .ok (orElse (s.getItem "theme") "light") ∧
      (∃ w1, initTheme w = .ok w1 ∧ w1.dataTheme = some (orElse (s.getItem "theme") "light") ∧
        w1.changeListener = w.changeListener) ∧
      (∃ w1, toggleTheme w = .ok w1) := by
  have hsys : getSystemTheme w = "light" := by simp [getSystemTheme_eq, hm]
  refine ⟨hsys, ?_⟩
  intro s hs
  have hcur := getCurrentTheme_ok w s hs
  rw [hsys] at hcur
  refine ⟨hcur, ?_, ?_⟩
  · rcases hb : w.themeToggle with _ | b <;>
      simp [initTheme, hcur, applyTheme, hb, hm]
  · obtain ⟨w1, hw1, -⟩ :=
      toggleTheme_fields w s hs (orElse (s.getItem "theme") (getSystemTheme w)) rfl
    exact ⟨w1, hw1⟩

/-- C5 as amended, at a host without a media query whose store is empty and at
one whose store holds `dark`. -/
theorem theme_without_matchMedia_witness :
    getSystemTheme (freshPage (some emptyStorage) none none) = "light" ∧
    getCurrentTheme (freshPage (some emptyStorage) none none) = .ok "light" ∧
    getCurrentTheme (freshPage (some (themeStorage "dark")) none none) = .ok "dark" ∧
    (∃ w1, initTheme (freshPage (some emptyStorage) none none) = .ok w1 ∧
      w1.dataTheme = some "light" ∧ w1.changeListener = false) :=
  ⟨(theme_without_matchMedia (freshPage (some emptyStorage) none none) rfl).1,
   ((theme_without_matchMedia (freshPage (some emptyStorage) none none) rfl).2
      emptyStorage rfl).1,
   ((theme_without_matchMedia (freshPage (some (themeStorage "dark")) none none) rfl).2
      (themeStorage "dark") rfl).1,
   ((theme_without_matchMedia (freshPage (some emptyStorage) none none) rfl).2
      emptyStorage rfl).2.1⟩

/-! ## Smooth scrolling -/

theorem classifySelector_identifier (name : String) (h : isIdentifier name.toList = true) :
    classifySelector ("#" ++ name) = .idSelector name := by
  have hl : ("#" ++ name).toList = '#' :: name.data := by
    simp [String.toList]
  have hd : isIdentifier name.data = true := h
  simp [classifySelector, hl, hd]

theorem smoothScrollClick_some (querySelector : String → Except JsError (Option NodeId))
    (href : String) (target : NodeId) (h : href ≠ "#")
    (ht : querySelector href = .ok (some target)) :
    smoothScrollClick querySelector href =
      { defaultPrevented := true,
        scrolledIntoView := some (target, { behavior := "smooth", block := "start" }),
        thrown := none } := by
  simp [smoothScrollClick, h, ht]

theorem smoothScrollClick_none (querySelector : String → Except JsError (Option NodeId))
    (href : String) (h : href ≠ "#") (ht : querySelector href = .ok none) :
    smoothScrollClick querySelector href =
      { defaultPrevented := false, scrolledIntoView := none, thrown := none } := by
  simp [smoothScrollClick, h, ht]

/-- C6 fails when the fragment is not a CSS identifier: node 3 has `id="1"`,
yet a click on a link with `href="#1"` ends in a `SyntaxError`, prevents
nothing and scrolls nothing. -/
theorem smoothScrollClick_digit_id :
    sampleDocument.getElementById "1" = some 3 ∧
    smoothScrollClick sampleDocument.querySelector "#1" =
      { defaultPrevented := false, scrolledIntoView := none,
        thrown := some (.syntaxError "#1") } := by
  decide

/-- C6 as amended: a click on a link with `href` exactly `#` neither prevents
the default action nor scrolls.  For `href` equal to `#name` with `name` a CSS
identifier: if an element with id `name` exists, the listener prevents the
default action and calls `scrollIntoView` with behavior `smooth` and block
`start` on exactly the first such element; if none exists it neither prevents
the default action nor scrolls.  For every other `href` the target is what
`document.querySelector(href)` yields: a node is scrolled to in the same way,
and without a node nothing is prevented or scrolled. -/
theorem smoothScrollClick_spec (document : Document) (href : String) :
    (href = "#" → smoothScrollClick document.querySelector href =
      { defaultPrevented := false, scrolledIntoView := none, thrown := none }) ∧
    (∀ name, href = "#" ++ name → isIdentifier name.toList = true →
      (∀ target, document.getElementById name = some target →
        smoothScrollClick document.querySelector href =
          { defaultPrevented := true,
            scrolledIntoView := some (target, { behavior := "smooth", block := "start" }),
            thrown := none }) ∧
      (document.getElementById name = none →
        smoothScrollClick document.querySelector href =
          { defaultPrevented := false, scrolledIntoView := none, thrown := none })) ∧
    (href ≠ "#" → ∀ target, document.querySelector href = .ok (some target) →
      smoothScrollClick document.querySelector href =
        { defaultPrevented := true,
          scrolledIntoView := some (target, { behavior := "smooth", block := "start" }),
          thrown := none }) ∧
    (href ≠ "#" → (∀ target, document.querySelector href ≠ .ok (some target)) →
      (smoothScrollClick document.querySelector href).defaultPrevented = false ∧
      (smoothScrollClick document.querySelector href).scrolledIntoView = none) := by
  refine ⟨?_, ?_, ?_, ?_⟩
  · intro h
    simp [smoothScrollClick, h]
  · intro name hname hident
    have hne : href ≠ "#" := by
      intro h
      rw [h] at hname
      have hlen := congrArg String.length hname
      rw [String.length_append] at hlen
      have hpos : name.length = 0 := by
        have h1 : ("#" : String).length = 1 := rfl
        omega
      have hnil : name.toList = [] := by
        have hdata : name.data.length = 0 := hpos
        exact List.length_eq_zero.mp hdata
      rw [hnil] at hident
      cases hident
    have hq : ∀ r, document.getElementById name = r → document.querySelector href = .ok r := by
      intro r hr
      rw [hname]
      simp only [Document.querySelector, classifySelector_identifier name hident, hr]
    exact ⟨fun target ht => smoothScrollClick_some _ href target hne (hq _ ht),
      fun hn => smoothScrollClick_none _ href hne (hq _ hn)⟩
  · intro h target ht
    exact smoothScrollClick_some _ href target h ht
  · intro h hno
    unfold smoothScrollClick
    rw [if_neg h]
    rcases hq : document.querySelector href with e | (_ | target)
    · exact ⟨rfl, rfl⟩
    · exact ⟨rfl, rfl⟩
    · exact absurd hq (hno target)

/-- C6 as amended, at the two scenarios of the specification: `href="#"`, and
`href="#section1"` with the element of that id present on node 7. -/
theorem smoothScrollClick_spec_witness :
    smoothScrollClick sampleDocument.querySelector "#" =
      { defaultPrevented := false, scrolledIntoView := none, thrown := none } ∧
    smoothScrollClick sampleDocument.querySelector "#section1" =
      { defaultPrevented := true,
        scrolledIntoView := some (7, { behavior := "smooth", block := "start" }),
        thrown := none } :=
  ⟨(smoothScrollClick_spec sampleDocument "#").1 rfl,
   ((smoothScrollClick_spec sampleDocument "#section1").2.1 "section1" rfl (by decide)).1 7
     (by decide)⟩

end Portfolio

namespace Portfolio

/-! ## Lazy image loading -/

theorem loadEntry_of_ne (imgs : Images) (entry : IntersectionEntry) (n : NodeId)
    (h : entry.isIntersecting = true → n ≠ entry.target) : loadEntry imgs entry n = imgs n := by
  unfold loadEntry
  split
  · next hi => simp [h hi]
  · rfl

theorem loadEntry_congr (imgs imgs1 : Images) (entry : IntersectionEntry)
    (h : imgs1 entry.target = imgs entry.target) :
    loadEntry imgs1 entry entry.target = loadEntry imgs entry entry.target := by
  unfold loadEntry
  split
  · simp [h]
  · exact h

theorem imageObserverCallback_of_ne (entries : List IntersectionEntry) (imgs : Images)
    (n : NodeId) (h : ∀ e ∈ entries, e.isIntersecting = true → n ≠ e.target) :
    imageObserverCallback entries imgs n = imgs n := by
  induction entries generalizing imgs with
  | nil => rfl
  | cons x rest ih =>
    have hrest : ∀ e ∈ rest, e.isIntersecting = true → n ≠ e.target :=
      fun e he => h e (List.mem_cons_of_mem x he)
    have hx := loadEntry_of_ne imgs x n (h x (List.mem_cons_self x rest))
    have := ih (loadEntry imgs x) hrest
    simp only [imageObserverCallback, List.foldl_cons] at this ⊢
    rw [this, hx]

theorem imageObserverCallback_at_target (entries : List IntersectionEntry) (imgs : Images)
    (hnodup : (entries.map (·.target)).Nodup) (entry : IntersectionEntry)
    (hmem : entry ∈ entries) :
    imageObserverCallback entries imgs entry.target = loadEntry imgs entry entry.target := by
  induction entries generalizing imgs with
  | nil => cases hmem
  | cons x rest ih =>
    rw [List.map_cons, List.nodup_cons] at hnodup
    obtain ⟨hx, hrest⟩ := hnodup
    have hstep : imageObserverCallback (x :: rest) imgs =
        imageObserverCallback rest (loadEntry imgs x) := rfl
    rw [hstep]
    rcases List.mem_cons.mp hmem with rfl | hin
    · apply imageObserverCallback_of_ne
      intro e he _ heq
      exact hx (List.mem_map.mpr ⟨e, he, heq.symm⟩)
    · rw [ih (loadEntry imgs x) hrest hin]
      apply loadEntry_congr
      apply loadEntry_of_ne
      intro _ heq
      exact hx (List.mem_map.mpr ⟨entry, hin, heq⟩)

/-- C7 fails for a batch with two entries of one image: after two intersecting
entries the image with `data-src="x.png"` ends with `src` equal to the string
`undefined`, and after a non-intersecting and an intersecting entry the image
is changed although it has an entry that is not intersecting. -/
theorem imageObserverCallback_repeated_target :
    (sampleImages 0).dataSrc = some "x.png" ∧
    (imageObserverCallback [⟨0, true⟩, ⟨0, true⟩] sampleImages 0).src = some "undefined" ∧
    imageObserverCallback [⟨0, false⟩, ⟨0, true⟩] sampleImages 0 ≠ sampleImages 0 := by
  decide

/-- C7 as amended: for a batch in which no image has more than one entry, an
image whose entry is intersecting and whose `data-src` was `v` ends with
`src = v`, without `data-src` and unobserved; an image whose entry is not
intersecting is exactly as before. -/
theorem imageObserverCallback_spec (imgs : Images) (entries : List IntersectionEntry)
    (hnodup : (entries.map (·.target)).Nodup) (entry : IntersectionEntry)
    (hmem : entry ∈ entries) :
    (entry.isIntersecting = true → ∀ v, (imgs entry.target).dataSrc = some v →
      (imageObserverCallback entries imgs entry.target).src = some v ∧
      (imageObserverCallback entries imgs entry.target).dataSrc = none ∧
      (imageObserverCallback entries imgs entry.target).observed = false) ∧
    (entry.isIntersecting = false →
      imageObserverCallback entries imgs entry.target = imgs entry.target) := by
  rw [imageObserverCallback_at_target entries imgs hnodup entry hmem]
  constructor
  · intro hi v hv
    simp [loadEntry, hi, hv, toDOMString]
  · intro hi
    simp [loadEntry, hi]

/-- C7 as amended, at the scenario of the specification: the image with
`data-src="x.png"` enters the viewport while another image stays outside. -/
theorem imageObserverCallback_spec_witness :
    (imageObserverCallback [⟨0, true⟩, ⟨1, false⟩] sampleImages 0).src = some "x.png" ∧
    (imageObserverCallback [⟨0, true⟩, ⟨1, false⟩] sampleImages 0).dataSrc = none ∧
    (imageObserverCallback [⟨0, true⟩, ⟨1, false⟩] sampleImages 0).observed = false :=
  (imageObserverCallback_spec sampleImages [⟨0, true⟩, ⟨1, false⟩] (by decide) ⟨0, true⟩
    (by decide)).1 rfl "x.png" rfl

/-! ## Reveal on scroll -/

/-- C8 fails on the code: on a host without `IntersectionObserver` the animator's
setup ends in an uncaught exception for every list of matched elements, while
the lazy loader's setup on the same host succeeds and changes nothing. -/
theorem revealSetup_without_observer (animatedElements : List AnimatedElement)
    (imgs : Images) :
    revealSetup false animatedElements = .error (.referenceError "IntersectionObserver") ∧
    lazyImageSetup false imgs = .ok imgs :=
  ⟨rfl, rfl⟩

end Portfolio
